import Mathlib

/-!
Verification of the alice-skill voice-mail backend: a shallow embedding of
the PostgreSQL store (`internal/store/pg/store.go`), the request model
(`internal/models/models.go`) and the webhook dispatcher
(`cmd/skill/app.go`), with theorems settling the specification claims.

Conventions of the embedding:
* the two tables created by `Bootstrap` are Lean lists of rows; the
  `serial` message id is an explicit `nextMessageId` counter;
* timestamps are abstract ticks (`Nat`); `time.Now()` is a parameter;
* the hypothetical parse helpers (`parseSendCommand`, `parseReadCommand`,
  `parseRegisterCommand`) and the timezone facilities of the Go standard
  library are not part of the repository's sources, so the dispatcher is
  parametrised over them (`Oracles`);
* a Go runtime panic (slice index out of range) is the `Outcome.panic`
  value; transport-level status codes are the other `Outcome` variants.
-/

set_option maxRecDepth 4096

namespace AliceSkill

/-- Embeds Go `strings.HasPrefix(s, pre)` as a character-list prefix test
(for valid UTF-8 strings the byte-prefix and character-prefix relations
coincide). -/
def hasPrefix (s pre : String) : Bool :=
  pre.data.isPrefixOf s.data

/-! ## Store data model (tables created by `Store.Bootstrap`) -/

/-- A row of the `users` table: `id varchar PRIMARY KEY`, `username varchar`
with the unique index `sender_idx` on `username`. -/
structure User where
  id : String
  username : String
deriving DecidableEq

/-- A row of the `messages` table: `id serial PRIMARY KEY`, `sender`,
`recepient`, `payload`, `sent_at`, `read_at ... DEFAULT NULL`. -/
structure MessageRow where
  id : Nat
  sender : String
  recepient : String
  payload : String
  sentAt : Nat
  readAt : Option Nat
deriving DecidableEq

/-- The persisted state: the two tables plus the `serial` sequence that
assigns the next message id. -/
structure DB where
  users : List User
  messages : List MessageRow
  nextMessageId : Nat
deriving DecidableEq

/-- Result row of `ListMessages`' query (`m.id, u.username AS sender,
m.sent_at`): scanned into `store.Message` with the payload left empty. -/
structure Summary where
  id : Nat
  sender : String
  sentAt : Nat
deriving DecidableEq

/-- Result row of `GetMessage`'s query (`m.id, u.username AS sender,
m.payload, m.sent_at`). -/
structure FullMessage where
  id : Nat
  sender : String
  payload : String
  sentAt : Nat
deriving DecidableEq

/-- `FindRecepient`: `SELECT id FROM users WHERE username = $1`, scanning the
single row; `sql.ErrNoRows` (no such username) is `none`. -/
def findRecepient (db : DB) (username : String) : Option String :=
  (db.users.find? (fun u => u.username = username)).map (fun u => u.id)

/-- The rows of `ListMessages`' query in table order: messages with
`m.recepient = $1` joined with `users` on `m.sender = u.id` (a nested-loop
join, message-major).  The query has no `ORDER BY`, so this is one permitted
evaluation; `listMessagesMay` below captures every permitted one. -/
def listMessagesRows (db : DB) (userID : String) : List Summary :=
  (db.messages.filter (fun m => m.recepient = userID)).flatMap
    (fun m => (db.users.filter (fun u => u.id = m.sender)).map
      (fun u => ⟨m.id, u.username, m.sentAt⟩))

/-- The results `ListMessages` may return.  The SQL query has no `ORDER BY`
clause, so SQL leaves the order of the returned rows unspecified: any
permutation of the join's bag of rows is a permitted result. -/
def listMessagesMay (db : DB) (userID : String) (out : List Summary) : Prop :=
  out.Perm (listMessagesRows db userID)

/-- `GetMessage`: the single-row query `WHERE m.id = $1` joined with `users`
on `m.sender = u.id`; `QueryRowContext` yields the first row of the result
set, and `sql.ErrNoRows` (no row) is `none`. -/
def getMessage (db : DB) (id : Nat) : Option FullMessage :=
  ((db.messages.filter (fun m => m.id = id)).flatMap
    (fun m => (db.users.filter (fun u => u.id = m.sender)).map
      (fun u => ⟨m.id, u.username, m.payload, m.sentAt⟩))).head?

/-- `SaveMessage`: `INSERT INTO messages (sender, recepient, payload,
sent_at)` with `sent_at = time.Now()` (the `t` parameter); `id` comes from
the `serial` sequence and `read_at` defaults to NULL.  The schema declares
no foreign keys, so the insert always succeeds. -/
def saveMessage (db : DB) (recepientID sender payload : String) (t : Nat) : DB :=
  { db with
    messages := db.messages ++ [⟨db.nextMessageId, sender, recepientID, payload, t, none⟩],
    nextMessageId := db.nextMessageId + 1 }

/-- Outcome of `RegisterUser`: either the updated state, or the
`store.ErrConflict` error. -/
inductive RegResult where
  | ok (db : DB)
  | conflict
deriving DecidableEq

/-- `RegisterUser`: `INSERT INTO users (id, username)`.  The insert raises an
integrity-constraint violation when the primary key on `id` or the unique
index on `username` collides with an existing row, and `RegisterUser` maps
every `pgerrcode.IsIntegrityConstraintViolation` error to
`store.ErrConflict`; a failed insert leaves the table unchanged. -/
def registerUser (db : DB) (userID username : String) : RegResult :=
  if db.users.any (fun u => u.id = userID || u.username = username)
  then .conflict
  else .ok { db with users := db.users ++ [⟨userID, username⟩] }

/-- The store state after a `RegisterUser` call: the new state on success,
the unchanged state when the insert failed with a conflict. -/
def applyRegister (db : DB) (userID username : String) : DB :=
  match registerUser db userID username with
  | .ok db' => db'
  | .conflict => db

/-! ## Request model and its JSON decoding (`internal/models/models.go`) -/

/-- A JSON value, as far as the request body needs. -/
inductive Json where
  | str (s : String)
  | bool (b : Bool)
  | obj (fields : List (String × Json))
  | null

/-- Looks a key up in a decoded JSON object. -/
def jlookup (fields : List (String × Json)) (k : String) : Option Json :=
  (fields.find? (fun p => p.1 = k)).map (fun p => p.2)

/-- The `models.Session` struct exactly as declared in
`internal/models/models.go`: the single field `New bool` with tag
`json:"new"`.  It declares no `User` field. -/
structure SessionSrc where
  new : Bool
deriving DecidableEq

/-- `encoding/json` decoding of a value into `models.Session` as declared:
an absent `new` key leaves the zero value, a present one must be a JSON
boolean, `null` leaves the struct untouched, a non-object is an error, and
every key the struct does not declare — in particular `user` — is ignored. -/
def decodeSessionSrc : Json → Option SessionSrc
  | .obj fields =>
      match jlookup fields "new" with
      | none => some ⟨false⟩
      | some (.bool b) => some ⟨b⟩
      | some _ => none
  | .null => some ⟨false⟩
  | _ => none

/-- The decoded request the dispatcher works on: `models.Request` flattened.
`userID` is the `session.user.user_id` field.  Modelled from the spec: the
spec's request schema has `"session": \x7b"new": bool, "user": \x7b"user_id":
string\x7d\x7d` and `app.go` reads `req.Session.User.UserID`, but the
`models.Session` declaration in `src` carries no such field (see
`SessionSrc`); the field itself is therefore taken from the spec. -/
structure AliceRequest where
  timezone : String
  requestType : String
  command : String
  sessionNew : Bool
  userID : String
  version : String
deriving DecidableEq

/-! ## The webhook dispatcher (`cmd/skill/app.go`) -/

/-- What one call of the `webhook` handler produces.  `ok` carries the reply
text (the body is the JSON envelope around it, HTTP 200) and the store state
after the request; the bare status codes carry no spoken reply; `panic` is a
Go runtime panic (slice index out of range), which never reaches
`WriteHeader`. -/
inductive Outcome where
  | ok (text : String) (db : DB)
  | methodNotAllowed
  | internalServerError
  | unprocessableEntity
  | badRequest
  | panic
deriving DecidableEq

/-- External functions the handler calls that are not part of the
repository's sources: the hypothetical parse helpers (`parseSendCommand`,
`parseReadCommand`, `parseRegisterCommand`, called but nowhere defined —
the spec says their tokenization is implementation-defined), and the Go
standard library's clock and timezone database.  `loadLocation` is
`time.LoadLocation` (`none` = unresolvable timezone) and `localClock z`
is the `(hour, minute)` pair of `time.Now().In(z).Clock()`. -/
structure Oracles where
  parseSend : String → String × String
  parseRead : String → Int
  parseRegister : String → String
  loadLocation : String → Option String
  localClock : String → Nat × Nat
  now : Nat

/-- The `SendMessage` branch: resolve the recipient via `FindRecepient`
(failure is HTTP 500), then `SaveMessage` with the caller as sender and
reply with the fixed confirmation sentence. -/
def sendBranch (o : Oracles) (db : DB) (req : AliceRequest) : Outcome :=
  let parsed := o.parseSend req.command
  match findRecepient db parsed.1 with
  | none => .internalServerError
  | some recepientID =>
      .ok "Сообщение успешно отправлено" (saveMessage db recepientID req.userID parsed.2 o.now)

/-- The `ReadMessage` branch, index arithmetic verbatim from the source:
after `ListMessages`, the guard is `len(messages) < messageIndex`; when it
fails the code evaluates `messages[messageIndex]`, which panics whenever the
index is negative or not below the length.  A found message is fetched with
`GetMessage` (failure is HTTP 500) and read out. -/
def readBranch (db : DB) (callerID : String) (messageIndex : Int) : Outcome :=
  let messages := listMessagesRows db callerID
  if (messages.length : Int) < messageIndex then
    .ok "Такого сообщения не существует." db
  else if messageIndex < 0 then
    .panic
  else
    match messages.get? messageIndex.toNat with
    | none => .panic
    | some summary =>
        match getMessage db summary.id with
        | none => .internalServerError
        | some message =>
            .ok ("Сообщение от " ++ message.sender ++ ", отправлено "
                  ++ toString message.sentAt ++ ": " ++ message.payload) db

/-- The `RegisterUser` branch: a conflict becomes the fixed "name taken"
sentence, success the confirmation naming the username.  (In the embedded
store the only failure of `RegisterUser` is the conflict, so the handler's
HTTP-500 path for other store errors is unreachable here.) -/
def registerBranch (db : DB) (callerID username : String) : Outcome :=
  match registerUser db callerID username with
  | .conflict => .ok "Извините, такое имя уже занято. Попробуйте другое." db
  | .ok db' => .ok ("Вы успешно зарегистрированы под именем " ++ username) db'

/-- The unread-count text of the default branch: the fixed no-new-messages
sentence for an empty list, otherwise the count sentence. -/
def unreadCountText (db : DB) (userID : String) : String :=
  let messages := listMessagesRows db userID
  if messages.length > 0 then
    "Для вас " ++ toString messages.length ++ " новых сообщений."
  else
    "Для вас нет новых сообщений."

/-- The default (`Unknown` intent) branch: the unread-count text; on the
first turn of a new session the timezone is resolved (failure is HTTP 400
with no reply) and the local time is prepended. -/
def defaultBranch (o : Oracles) (db : DB) (req : AliceRequest) : Outcome :=
  let text := unreadCountText db req.userID
  if req.sessionNew then
    match o.loadLocation req.timezone with
    | none => .badRequest
    | some tz =>
        .ok ("Точное время " ++ toString (o.localClock tz).1 ++ " часов, "
              ++ toString (o.localClock tz).2 ++ " минут. " ++ text) db
  else
    .ok text db

/-- The `webhook` handler: method check (405), decode (a failed decode is
`decoded = none`, HTTP 500), request-type check (422), then the prefix
dispatch over the command in source order: `Отправь`, `Прочитай`,
`Зарегистрируй`, default. -/
def webhook (o : Oracles) (db : DB) (method : String) (decoded : Option AliceRequest) : Outcome :=
  if method ≠ "POST" then .methodNotAllowed
  else
    match decoded with
    | none => .internalServerError
    | some req =>
        if req.requestType ≠ "SimpleUtterance" then .unprocessableEntity
        else if hasPrefix req.command "Отправь" then sendBranch o db req
        else if hasPrefix req.command "Прочитай" then readBranch db req.userID (o.parseRead req.command)
        else if hasPrefix req.command "Зарегистрируй" then registerBranch db req.userID (o.parseRegister req.command)
        else defaultBranch o db req

/-- A fixed instantiation of the external functions, used by concrete
scenarios: the read parse yields ordinal 0, registration uses the whole
command, only `Europe/Moscow` resolves, and the Moscow clock reads 12:30. -/
def oracle0 : Oracles :=
  ⟨fun _ => ("alice", "привет"), fun _ => 0, fun s => s,
   fun tz => if tz = "Europe/Moscow" then some "Europe/Moscow" else none,
   fun _ => (12, 30), 7⟩

/-- Decides, following the spec's ordering requirement, whether a summary
list is strictly ascending by message id (the spec's recommended
deterministic order). -/
def ascendingById : List Summary → Bool
  | [] => true
  | [_] => true
  | a :: b :: t => (a.id < b.id) && ascendingById (b :: t)

/-- A store with the single registered user `bob` (id `b`) and one message
for `alice`. -/
def dbOneMessage : DB :=
  ⟨[⟨"b", "bob"⟩], [⟨1, "b", "alice", "hi", 3, none⟩], 2⟩

/-- External functions whose read parse yields ordinal 1. -/
def oracleRead1 : Oracles :=
  ⟨fun _ => ("", ""), fun _ => 1, fun s => s, fun _ => none, fun _ => (0, 0), 0⟩

/-- A store with two registered users and two messages for the recipient
`r`, with ids 1 and 2. -/
def dbTwoSenders : DB :=
  ⟨[⟨"a", "ann"⟩, ⟨"b", "bob"⟩],
   [⟨1, "a", "r", "m1", 5, none⟩, ⟨2, "b", "r", "m2", 6, none⟩], 3⟩

/-! ## Helper lemmas -/

/-- Searching an appended list skips a prefix on which the predicate is
everywhere false. -/
theorem find?_append_right {α : Type} (l1 l2 : List α) (p : α → Bool)
    (h : ∀ a ∈ l1, p a = false) : (l1 ++ l2).find? p = l2.find? p := by
  induction l1 with
  | nil => rfl
  | cons a t ih =>
      have ha : ¬ p a = true := by simp [h a (List.mem_cons_self a t)]
      rw [List.cons_append, List.find?_cons_of_neg _ ha]
      exact ih (fun x hx => h x (List.mem_cons_of_mem a hx))

/-- The send branch can only answer 200 or 500, never 400. -/
theorem sendBranch_ne_badRequest (o : Oracles) (db : DB) (req : AliceRequest) :
    sendBranch o db req ≠ .badRequest := by
  unfold sendBranch
  dsimp only
  split <;> simp

/-- The read branch can only answer 200, 500 or panic, never 400. -/
theorem readBranch_ne_badRequest (db : DB) (callerID : String) (idx : Int) :
    readBranch db callerID idx ≠ .badRequest := by
  unfold readBranch
  dsimp only
  split
  · simp
  · split
    · simp
    · split
      · simp
      · split <;> simp

/-- The register branch always answers 200, never 400. -/
theorem registerBranch_ne_badRequest (db : DB) (callerID username : String) :
    registerBranch db callerID username ≠ .badRequest := by
  unfold registerBranch
  split <;> simp

/-- On a session that is not new, the default branch replies with the
unread-count text and touches neither timezone nor clock. -/
theorem defaultBranch_not_new (o : Oracles) (db : DB) (req : AliceRequest)
    (h : req.sessionNew = false) :
    defaultBranch o db req = .ok (unreadCountText db req.userID) db := by
  unfold defaultBranch
  dsimp only
  rw [h]
  simp

/-- A request on a session that is not new never draws the 400 Bad Request
answer, whatever its command. -/
theorem webhook_ne_badRequest_of_not_new (o : Oracles) (db : DB) (req : AliceRequest)
    (h : req.sessionNew = false) :
    webhook o db "POST" (some req) ≠ .badRequest := by
  unfold webhook
  simp only [ne_eq, not_true_eq_false, if_false, reduceIte]
  by_cases ht : req.requestType ≠ "SimpleUtterance"
  · simp [ht]
  · simp only [ht, if_false, reduceIte]
    by_cases h1 : hasPrefix req.command "Отправь"
    · simpa [h1] using sendBranch_ne_badRequest o db req
    · by_cases h2 : hasPrefix req.command "Прочитай"
      · simpa [h1, h2] using readBranch_ne_badRequest db req.userID (o.parseRead req.command)
      · by_cases h3 : hasPrefix req.command "Зарегистрируй"
        · simpa [h1, h2, h3] using
            registerBranch_ne_badRequest db req.userID (o.parseRegister req.command)
        · simp only [h1, h2, h3, if_false, reduceIte]
          rw [defaultBranch_not_new o db req h]
          simp

/-! ## Claim theorems -/

/-- Claim C1, the code at the failing input: for a POST SimpleUtterance
request whose command carries the read trigger and parses to ordinal 0 while
the caller's unread-message list is empty — an out-of-range ordinal, the
empty-list case of the claim — the handler does not reply HTTP 200 with the
fixed "Такого сообщения не существует." sentence: the guard
`len(messages) < messageIndex` is `0 < 0`, false, so the code evaluates
`messages[0]` on the empty slice and panics. -/
theorem read_out_of_range_empty_list_panics :
    webhook oracle0 ⟨[], [], 1⟩ "POST"
        (some ⟨"UTC", "SimpleUtterance", "Прочитай 1", false, "alice", "1.0"⟩) = .panic
    ∧ ¬ (webhook oracle0 ⟨[], [], 1⟩ "POST"
        (some ⟨"UTC", "SimpleUtterance", "Прочитай 1", false, "alice", "1.0"⟩)
          = .ok "Такого сообщения не существует." ⟨[], [], 1⟩) := by
  decide

/-- Claim C2, the code at the failing input: with one unread message and a
command parsed to index 1, the out-of-range guard
`len(messages) < messageIndex` does not fire (1 < 1 is false), yet the index
is not strictly below the list length, so the access `messages[1]` the
handler then evaluates is out of bounds and the handler panics. -/
theorem read_guard_passes_but_access_out_of_bounds :
    ¬ (((listMessagesRows dbOneMessage "alice").length : Int) < 1)
    ∧ ¬ ((1 : Int).toNat < (listMessagesRows dbOneMessage "alice").length)
    ∧ webhook oracleRead1 dbOneMessage "POST"
        (some ⟨"UTC", "SimpleUtterance", "Прочитай 2", false, "alice", "1.0"⟩) = .panic := by
  decide

/-- Claim C3, the code at the failing input: decoding a request body into
`models.Session` as declared in `src` discards `session.user.user_id` — two
bodies that differ only in that field decode to the same value — so the
decoded request carries no caller identifier the dispatcher's store calls
could use. -/
theorem decode_drops_session_user_id :
    decodeSessionSrc (.obj [("new", .bool false), ("user", .obj [("user_id", .str "bob")])])
      = decodeSessionSrc (.obj [("new", .bool false), ("user", .obj [("user_id", .str "carol")])])
    ∧ decodeSessionSrc (.obj [("new", .bool false), ("user", .obj [("user_id", .str "bob")])])
      = some ⟨false⟩
    ∧ "bob" ≠ "carol" := by
  decide

/-- Claim C4, the code at the failing input: `ListMessages`' query has no
`ORDER BY`, so for a recipient with messages 1 and 2 the store is permitted
to return the summaries in the order [2, 1], which is not ascending by
message id. -/
theorem listMessages_unordered_result_permitted :
    listMessagesMay dbTwoSenders "r" [⟨2, "bob", 6⟩, ⟨1, "ann", 5⟩]
    ∧ ascendingById [⟨2, "bob", 6⟩, ⟨1, "ann", 5⟩] = false := by
  refine ⟨?_, by decide⟩
  unfold listMessagesMay
  have h : listMessagesRows dbTwoSenders "r" = [⟨1, "ann", 5⟩, ⟨2, "bob", 6⟩] := by decide
  rw [h]
  exact List.Perm.swap _ _ _

/-- Claim C5, counterexample: registering the name `bob` from the already
registered user id `u1` draws the Conflict error although no user at all
holds the username `bob` — the conflict comes from the primary-key
violation on `id`, which `pgerrcode.IsIntegrityConstraintViolation` also
covers, not from a username taken by a different user id. -/
theorem registerUser_conflict_username_free :
    registerUser ⟨[⟨"u1", "alice"⟩], [], 1⟩ "u1" "bob" = .conflict
    ∧ ([⟨"u1", "alice"⟩] : List User).all (fun x => x.username ≠ "bob") = true := by
  decide

/-- Claim C5 as amended: `RegisterUser` fails with the dedicated Conflict
error exactly when the insert violates an integrity constraint — the
requested username is already taken by some user, or the user id is already
registered; every other persistence failure (none arises in the embedded
store) would remain a generic error. -/
theorem registerUser_conflict_iff_integrity_violation (db : DB) (id u : String) :
    registerUser db id u = .conflict ↔ ∃ x ∈ db.users, x.id = id ∨ x.username = u := by
  unfold registerUser
  split
  · next h =>
      simp only [List.any_eq_true, Bool.or_eq_true, decide_eq_true_eq] at h
      exact iff_of_true rfl h
  · next h =>
      simp only [List.any_eq_true, Bool.or_eq_true, decide_eq_true_eq] at h
      exact iff_of_false (by simp) h

/-- Claim C6, counterexample: on an empty store, `SaveMessage` from the
unregistered sender id `s` succeeds (the schema has no foreign keys), yet
`ListMessages` joins `messages` with `users` on the sender id, so the list
for the recipient `r` stays empty instead of gaining one entry. -/
theorem saveMessage_unregistered_sender_not_listed :
    ¬ ((listMessagesRows (saveMessage ⟨[], [], 1⟩ "r" "s" "hello" 0) "r").length
        = (listMessagesRows (⟨[], [], 1⟩ : DB) "r").length + 1) := by
  decide

/-- Claim C6 as amended: when the sender id `s` matches exactly one
registered user `u`, a successful `SaveMessage(r, s, p)` extends
`ListMessages(r)` by exactly one entry, appended at the end, whose sender
field is `u`'s username (the join reports the username, not the id `s`). -/
theorem listMessages_after_save_registered_sender (db : DB) (r s p : String) (t : Nat)
    (u : User) (hu : db.users.filter (fun x => x.id = s) = [u]) :
    listMessagesRows (saveMessage db r s p t) r
      = listMessagesRows db r ++ [⟨db.nextMessageId, u.username, t⟩]
    ∧ (listMessagesRows (saveMessage db r s p t) r).length
      = (listMessagesRows db r).length + 1 := by
  have hmain : listMessagesRows (saveMessage db r s p t) r
      = listMessagesRows db r ++ [⟨db.nextMessageId, u.username, t⟩] := by
    unfold listMessagesRows saveMessage
    dsimp only
    rw [List.filter_append, List.flatMap_append]
    simp [hu]
  exact ⟨hmain, by rw [hmain]; simp⟩

/-- Claim C6, witness of the amended theorem at a concrete store. -/
theorem listMessages_after_save_registered_sender_witness :
    listMessagesRows (saveMessage ⟨[⟨"s", "sam"⟩], [], 1⟩ "r" "s" "привет" 4) "r"
      = listMessagesRows ⟨[⟨"s", "sam"⟩], [], 1⟩ "r" ++ [⟨1, "sam", 4⟩]
    ∧ (listMessagesRows (saveMessage ⟨[⟨"s", "sam"⟩], [], 1⟩ "r" "s" "привет" 4) "r").length
      = (listMessagesRows ⟨[⟨"s", "sam"⟩], [], 1⟩ "r").length + 1 :=
  listMessages_after_save_registered_sender ⟨[⟨"s", "sam"⟩], [], 1⟩ "r" "s" "привет" 4
    ⟨"s", "sam"⟩ (by decide)

/-- Claim C7: a payload saved by `SaveMessage` — multi-byte text included —
comes back byte-for-byte from `GetMessage` at the new message's id, provided
the message ids in the store are below the sequence value (`serial` keeps
this) and the sender id is registered (the query joins `users` on it). -/
theorem getMessage_roundtrips_payload (db : DB) (r s p : String) (t : Nat)
    (hfresh : ∀ m ∈ db.messages, m.id < db.nextMessageId)
    (hs : db.users.filter (fun x => x.id = s) ≠ []) :
    Option.map (fun m => m.payload) (getMessage (saveMessage db r s p t) db.nextMessageId)
      = some p := by
  obtain ⟨u0, rest, hu⟩ : ∃ u0 rest, db.users.filter (fun x => x.id = s) = u0 :: rest := by
    cases h : db.users.filter (fun x => x.id = s) with
    | nil => exact absurd h hs
    | cons a l => exact ⟨a, l, rfl⟩
  unfold getMessage saveMessage
  dsimp only
  rw [List.filter_append]
  have h1 : db.messages.filter (fun m => m.id = db.nextMessageId) = [] := by
    rw [List.filter_eq_nil_iff]
    intro m hm
    simp only [decide_eq_true_eq]
    exact Nat.ne_of_lt (hfresh m hm)
  rw [h1]
  simp [hu]

/-- Claim C7, witness: the multi-byte payload `привет` round-trips on a
concrete store. -/
theorem getMessage_roundtrips_payload_witness :
    Option.map (fun m => m.payload)
        (getMessage (saveMessage ⟨[⟨"s", "sam"⟩], [], 1⟩ "r" "s" "привет" 9) 1)
      = some "привет" :=
  getMessage_roundtrips_payload ⟨[⟨"s", "sam"⟩], [], 1⟩ "r" "s" "привет" 9
    (by decide) (by decide)

/-- Claim C8: after a first successful registration of username `u` by
`id1`, a second registration of `u` by the different id `id2` yields the
Conflict outcome, the failed insert leaves the store unchanged, and the
first user's stored username is still `u`. -/
theorem register_conflict_second_registration (db db1 : DB) (id1 id2 u : String)
    (_hne : id1 ≠ id2) (h1 : registerUser db id1 u = .ok db1) :
    registerUser db1 id2 u = .conflict
    ∧ applyRegister db1 id2 u = db1
    ∧ db1.users.find? (fun x => x.id = id1) = some ⟨id1, u⟩ := by
  unfold registerUser at h1
  split at h1
  · exact absurd h1 (by simp)
  · next hany =>
      simp only [List.any_eq_true, Bool.or_eq_true, decide_eq_true_eq] at hany
      push_neg at hany
      have hdb1 : db1 = { db with users := db.users ++ [⟨id1, u⟩] } := by
        injection h1 with h
        exact h.symm
      subst hdb1
      have hmem : ((db.users ++ [⟨id1, u⟩] : List User).any
          fun x => x.id = id2 || x.username = u) = true := by
        simp [List.any_append]
      have hc : registerUser { db with users := db.users ++ [⟨id1, u⟩] } id2 u = .conflict := by
        unfold registerUser
        simp only [hmem]
        simp
      refine ⟨hc, ?_, ?_⟩
      · unfold applyRegister
        rw [hc]
      · dsimp only
        rw [find?_append_right]
        · simp [List.find?]
        · intro x hx
          exact decide_eq_false (hany x hx).1

/-- Claim C8, witness: `bob` registers `carol`, then `dave` tries the same
username on a concrete store. -/
theorem register_conflict_second_registration_witness :
    registerUser ⟨[⟨"bob", "carol"⟩], [], 1⟩ "dave" "carol" = .conflict
    ∧ applyRegister ⟨[⟨"bob", "carol"⟩], [], 1⟩ "dave" "carol" = ⟨[⟨"bob", "carol"⟩], [], 1⟩
    ∧ (⟨[⟨"bob", "carol"⟩], [], 1⟩ : DB).users.find? (fun x => x.id = "bob")
        = some ⟨"bob", "carol"⟩ :=
  register_conflict_second_registration ⟨[], [], 1⟩ ⟨[⟨"bob", "carol"⟩], [], 1⟩
    "bob" "dave" "carol" (by decide) (by decide)

/-- Claim C9: for an Unknown-intent SimpleUtterance request on a new
session, an unresolvable timezone yields 400 Bad Request with no spoken
reply, a resolvable one yields the unread-count text prefixed with the
current local time; and no request on a session that is not new ever
draws the 400 Bad Request answer. -/
theorem unknown_intent_new_session_timezone (o : Oracles) (db : DB) (req : AliceRequest)
    (htype : req.requestType = "SimpleUtterance")
    (h1 : hasPrefix req.command "Отправь" = false)
    (h2 : hasPrefix req.command "Прочитай" = false)
    (h3 : hasPrefix req.command "Зарегистрируй" = false) :
    (req.sessionNew = true → o.loadLocation req.timezone = none →
        webhook o db "POST" (some req) = .badRequest)
    ∧ (∀ tz, req.sessionNew = true → o.loadLocation req.timezone = some tz →
        webhook o db "POST" (some req)
          = .ok ("Точное время " ++ toString (o.localClock tz).1 ++ " часов, "
              ++ toString (o.localClock tz).2 ++ " минут. " ++ unreadCountText db req.userID) db)
    ∧ (∀ req2 : AliceRequest, req2.sessionNew = false →
        webhook o db "POST" (some req2) ≠ .badRequest) := by
  have hweb : webhook o db "POST" (some req) = defaultBranch o db req := by
    unfold webhook
    simp [htype, h1, h2, h3]
  refine ⟨?_, ?_, fun req2 hn => webhook_ne_badRequest_of_not_new o db req2 hn⟩
  · intro hnew hloc
    rw [hweb]
    unfold defaultBranch
    dsimp only
    rw [hnew, hloc]
    simp
  · intro tz hnew hloc
    rw [hweb]
    unfold defaultBranch
    dsimp only
    rw [hnew, hloc]
    simp

/-- Claim C9, witness: concrete new-session requests with an unresolvable
and a resolvable timezone, and a non-new request that cannot draw 400. -/
theorem unknown_intent_new_session_timezone_witness :
    webhook oracle0 dbOneMessage "POST"
        (some ⟨"Mars", "SimpleUtterance", "Привет", true, "alice", "1.0"⟩) = .badRequest
    ∧ webhook oracle0 dbOneMessage "POST"
        (some ⟨"Europe/Moscow", "SimpleUtterance", "Привет", true, "alice", "1.0"⟩)
        = .ok ("Точное время " ++ toString (oracle0.localClock "Europe/Moscow").1 ++ " часов, "
            ++ toString (oracle0.localClock "Europe/Moscow").2 ++ " минут. "
            ++ unreadCountText dbOneMessage "alice") dbOneMessage
    ∧ webhook oracle0 dbOneMessage "POST"
        (some ⟨"UTC", "SimpleUtterance", "Привет", false, "alice", "1.0"⟩) ≠ .badRequest :=
  ⟨(unknown_intent_new_session_timezone oracle0 dbOneMessage
      ⟨"Mars", "SimpleUtterance", "Привет", true, "alice", "1.0"⟩
      rfl (by decide) (by decide) (by decide)).1 rfl (by decide),
   (unknown_intent_new_session_timezone oracle0 dbOneMessage
      ⟨"Europe/Moscow", "SimpleUtterance", "Привет", true, "alice", "1.0"⟩
      rfl (by decide) (by decide) (by decide)).2.1 "Europe/Moscow" rfl (by decide),
   (unknown_intent_new_session_timezone oracle0 dbOneMessage
      ⟨"Europe/Moscow", "SimpleUtterance", "Привет", true, "alice", "1.0"⟩
      rfl (by decide) (by decide) (by decide)).2.2
     ⟨"UTC", "SimpleUtterance", "Привет", false, "alice", "1.0"⟩ rfl⟩

/-- Claim C10: for a user with no saved message addressed to them,
`ListMessages` returns the empty sequence (and no error), and on a session
that is not new the Unknown-intent reply is the verbatim fixed sentence
"Для вас нет новых сообщений." (on a new session the C9 time prefix is
prepended to it). -/
theorem empty_mailbox_default_reply (db : DB) (r : String)
    (hempty : ∀ m ∈ db.messages, ¬ m.recepient = r) :
    listMessagesRows db r = []
    ∧ ∀ (o : Oracles) (req : AliceRequest), req.userID = r →
        req.requestType = "SimpleUtterance" →
        hasPrefix req.command "Отправь" = false →
        hasPrefix req.command "Прочитай" = false →
        hasPrefix req.command "Зарегистрируй" = false →
        req.sessionNew = false →
        webhook o db "POST" (some req) = .ok "Для вас нет новых сообщений." db := by
  have hnil : listMessagesRows db r = [] := by
    unfold listMessagesRows
    have hfil : db.messages.filter (fun m => m.recepient = r) = [] := by
      rw [List.filter_eq_nil_iff]
      intro m hm
      simpa using hempty m hm
    rw [hfil]
    rfl
  refine ⟨hnil, fun o req huid htype h1 h2 h3 hnew => ?_⟩
  have hweb : webhook o db "POST" (some req) = defaultBranch o db req := by
    unfold webhook
    simp [htype, h1, h2, h3]
  rw [hweb, defaultBranch_not_new o db req hnew]
  unfold unreadCountText
  dsimp only
  rw [huid, hnil]
  simp

/-- Claim C10, witness: the empty store and a concrete Unknown-intent
request. -/
theorem empty_mailbox_default_reply_witness :
    listMessagesRows ⟨[], [], 1⟩ "alice" = []
    ∧ webhook oracle0 ⟨[], [], 1⟩ "POST"
        (some ⟨"UTC", "SimpleUtterance", "Привет", false, "alice", "1.0"⟩)
        = .ok "Для вас нет новых сообщений." ⟨[], [], 1⟩ :=
  have h := empty_mailbox_default_reply ⟨[], [], 1⟩ "alice" (by decide)
  ⟨h.1, h.2 oracle0 ⟨"UTC", "SimpleUtterance", "Привет", false, "alice", "1.0"⟩
    rfl rfl (by decide) (by decide) (by decide) rfl⟩

end AliceSkill
